import Mathlib

/-
  Verification development for the control-centre frontend
  (src/ui/app.js): a shallow embedding of its state-synchronization and
  optimistic command-dispatch logic, with theorems about the guarded
  toggles, the slider debounce machinery, the command gateway wrapper and
  the WiFi status rendering.
-/

namespace ControlCentre

/-- Argument payload of a backend command call: absent, an integer, or a
boolean (mirrors the `args` objects passed to `invoke`). -/
inductive Arg where
  | unit : Arg
  | int : Int → Arg
  | bool : Bool → Arg
deriving DecidableEq, Repr

/-- One backend mutation call issued through the gateway: the command name
and its argument. -/
structure Call where
  cmd : String
  arg : Arg
deriving DecidableEq, Repr

/-- One toast message shown by `showToast(message, type)`. -/
structure Toast where
  message : String
  severity : String
deriving DecidableEq, Repr

/-- Embeds `invoke` (src/ui/app.js lines 27 to 47): it delegates the command
to the backend collaborator; `backendResult` stands for the settled outcome
of that delegation. On success the result is returned with no other effect;
on failure the catch block shows an error toast and re-throws the failure
unchanged. -/
def invoke (command : String) (backendResult : Except String Arg) :
    Except String Arg × List Toast :=
  match command, backendResult with
  | _, Except.ok v => (Except.ok v, [])
  | _, Except.error e => (Except.error e, [⟨"Error: " ++ e, "error"⟩])

/-- The module-level `state` object (src/ui/app.js lines 123 to 134): the
mirror store of every control plus the pending-operation set. The
`pendingOperations` Set is modelled as a list queried by membership. -/
structure AppState where
  volume : Int
  muted : Bool
  brightness : Int
  wifiEnabled : Bool
  wifiConnected : Bool
  wifiSsid : Option String
  bluetoothEnabled : Bool
  nightLightEnabled : Bool
  pendingOperations : List String
deriving DecidableEq, Repr

/-- The DOM attributes the handlers write: each tile dataset-enabled flag
and each status text (the parts of `elements` the claims are about). -/
structure UIState where
  wifiTileEnabled : Bool
  bluetoothTileEnabled : Bool
  nightLightTileEnabled : Bool
  wifiStatusText : String
  bluetoothStatusText : String
  nightLightStatusText : String
deriving DecidableEq, Repr

/-- JS truthiness of `state.wifiSsid`: `null` and the empty string are
falsy, any other string is truthy. -/
def ssidTruthy : Option String → Bool
  | none => false
  | some s => decide (s ≠ "")

/-- The WiFi status text computed by `updateWifiUI` (lines 338 to 348):
the SSID when enabled, connected and the SSID is truthy; otherwise
the on-or-off word. -/
def wifiStatusText (s : AppState) : String :=
  if s.wifiEnabled && s.wifiConnected && ssidTruthy s.wifiSsid then
    s.wifiSsid.getD ""
  else if s.wifiEnabled then "On" else "Off"

/-- Embeds `updateWifiUI` (lines 338 to 348): writes the tile dataset and
the status text from the store. -/
def updateWifiUI (s : AppState) (ui : UIState) : UIState :=
  { ui with wifiTileEnabled := s.wifiEnabled, wifiStatusText := wifiStatusText s }

/-- Embeds `updateBluetoothUI` (lines 350 to 353). -/
def updateBluetoothUI (s : AppState) (ui : UIState) : UIState :=
  { ui with bluetoothTileEnabled := s.bluetoothEnabled,
            bluetoothStatusText := if s.bluetoothEnabled then "On" else "Off" }

/-- Embeds `updateNightLightUI` (lines 355 to 358). -/
def updateNightLightUI (s : AppState) (ui : UIState) : UIState :=
  { ui with nightLightTileEnabled := s.nightLightEnabled,
            nightLightStatusText := if s.nightLightEnabled then "On" else "Off" }

/-- A sample store state used by concrete evaluations: every boolean off,
both sliders at 50, nothing pending. -/
def sampleState : AppState :=
  { volume := 50, muted := false, brightness := 50, wifiEnabled := false,
    wifiConnected := false, wifiSsid := none, bluetoothEnabled := false,
    nightLightEnabled := false, pendingOperations := [] }

/-- A sample UI state with everything off and empty status texts. -/
def initialUI : UIState :=
  { wifiTileEnabled := false, bluetoothTileEnabled := false,
    nightLightTileEnabled := false, wifiStatusText := "",
    bluetoothStatusText := "", nightLightStatusText := "" }

/-- A state in which WiFi is enabled, connected, with SSID Home. -/
def wifiHomeState : AppState :=
  { sampleState with wifiEnabled := true, wifiConnected := true, wifiSsid := some "Home" }

/-- A state in which WiFi is enabled but not connected. -/
def wifiOnState : AppState :=
  { sampleState with wifiEnabled := true, wifiConnected := false, wifiSsid := some "Home" }

/-- C9: for every store state, the WiFi status text is the SSID exactly in
the enabled-and-connected-and-SSID-present case, is On when enabled but not
both connected and SSID-present, is Off when disabled; and whenever WiFi is
not both enabled and connected the text is one of On and Off, never the
SSID payload of some other state. -/
theorem wifi_status_text_cases (s : AppState) :
    (s.wifiEnabled = true → s.wifiConnected = true → ssidTruthy s.wifiSsid = true →
      wifiStatusText s = s.wifiSsid.getD "") ∧
    (s.wifiEnabled = true → ¬(s.wifiConnected = true ∧ ssidTruthy s.wifiSsid = true) →
      wifiStatusText s = "On") ∧
    (s.wifiEnabled = false → wifiStatusText s = "Off") ∧
    (¬(s.wifiEnabled = true ∧ s.wifiConnected = true) →
      wifiStatusText s = "On" ∨ wifiStatusText s = "Off") := by
  unfold wifiStatusText
  rcases he : s.wifiEnabled <;> rcases hc : s.wifiConnected <;>
    rcases ht : ssidTruthy s.wifiSsid <;> simp

/-- Witness for C9: the three scenario rows of the spec, obtained from
`wifi_status_text_cases` at concrete states. -/
theorem wifi_status_text_cases_witness :
    wifiStatusText wifiHomeState = "Home" ∧
    wifiStatusText wifiOnState = "On" ∧
    wifiStatusText sampleState = "Off" := by
  refine ⟨?_, ?_, ?_⟩
  · have h := (wifi_status_text_cases wifiHomeState).1 rfl rfl (by decide)
    simpa [wifiHomeState, sampleState] using h
  · exact (wifi_status_text_cases wifiOnState).2.1 rfl (by decide)
  · exact (wifi_status_text_cases sampleState).2.2.1 rfl

/-! Guarded toggles (src/ui/app.js lines 454 to 523). Each JS toggle is an
async function; its synchronous run up to the `await` of the backend call
is embedded as a Start function, and its two continuations (the code after
a successful `await`, and the catch block) as Success and Failure
functions. Each continuation includes the `finally` block that clears the
pending flag. -/

/-- The pending-set key used by `toggleWifi`. -/
def wifiKey : String := "wifi"

/-- The pending-set key used by `toggleBluetooth`. -/
def bluetoothKey : String := "bluetooth"

/-- The pending-set key used by `toggleNightLight`. -/
def nightLightKey : String := "nightLight"

/-- The backend command name of the WiFi mutation. -/
def setWifiCmd : String := "set_wifi_enabled"

/-- The backend command name of the Bluetooth mutation. -/
def setBluetoothCmd : String := "set_bluetooth_enabled"

/-- The backend command name of the night-light mutation. -/
def setNightLightCmd : String := "set_night_light_enabled"

/-- Removal from the pending Set (`state.pendingOperations.delete(key)`). -/
def pendingDelete (key : String) (l : List String) : List String :=
  l.filter (fun k => decide (k ≠ key))

/-- A single-shot deferred task scheduled with `setTimeout`, recorded by its
delay in time units. -/
structure DeferredTask where
  delay : Nat
deriving DecidableEq, Repr

/-- The synchronous run of `toggleWifi` (lines 454 to 462) up to the `await`
of `set_wifi_enabled`: the pending guard, the pending-set insertion, the
captured `newState`, the optimistic tile-dataset write, and the issued
backend call. Returns the store, the UI, the calls issued, and the captured
`newState` (`none` when the guard made the call a no-op). Note the store
field `wifiEnabled` is not written here. -/
def toggleWifiStart (s : AppState) (ui : UIState) :
    AppState × UIState × List Call × Option Bool :=
  if wifiKey ∈ s.pendingOperations then (s, ui, [], none)
  else
    let s1 := { s with pendingOperations := wifiKey :: s.pendingOperations }
    let newState := !s.wifiEnabled
    let ui1 := { ui with wifiTileEnabled := newState }
    (s1, ui1, [⟨setWifiCmd, Arg.bool newState⟩], some newState)

/-- The continuation of `toggleWifi` after `set_wifi_enabled` resolves
successfully (lines 463 to 472) plus the `finally` block (line 479): the
store commits `newState`, a deferred status fetch is scheduled 1000 units
later, and the pending flag is cleared. No synchronous UI update happens
here. -/
def toggleWifiSuccess (s : AppState) (newState : Bool) : AppState × List DeferredTask :=
  ({ s with wifiEnabled := newState,
            pendingOperations := pendingDelete wifiKey s.pendingOperations },
   [⟨1000⟩])

/-- The catch block of `toggleWifi` (lines 474 to 477) plus the `finally`
block: the store flips `wifiEnabled` from its current value, `updateWifiUI`
runs, and the pending flag is cleared. -/
def toggleWifiFailure (s : AppState) (ui : UIState) : AppState × UIState :=
  let s1 := { s with wifiEnabled := !s.wifiEnabled }
  let ui1 := updateWifiUI s1 ui
  ({ s1 with pendingOperations := pendingDelete wifiKey s1.pendingOperations }, ui1)

/-- The synchronous run of `toggleBluetooth` (lines 483 to 491) up to the
`await` of `set_bluetooth_enabled`, mirroring `toggleWifiStart`. -/
def toggleBluetoothStart (s : AppState) (ui : UIState) :
    AppState × UIState × List Call × Option Bool :=
  if bluetoothKey ∈ s.pendingOperations then (s, ui, [], none)
  else
    let s1 := { s with pendingOperations := bluetoothKey :: s.pendingOperations }
    let newState := !s.bluetoothEnabled
    let ui1 := { ui with bluetoothTileEnabled := newState }
    (s1, ui1, [⟨setBluetoothCmd, Arg.bool newState⟩], some newState)

/-- The continuation of `toggleBluetooth` after success (lines 492 to 493)
plus the `finally` block: commit the store value, run `updateBluetoothUI`,
clear the pending flag. -/
def toggleBluetoothSuccess (s : AppState) (ui : UIState) (newState : Bool) :
    AppState × UIState :=
  let s1 := { s with bluetoothEnabled := newState }
  ({ s1 with pendingOperations := pendingDelete bluetoothKey s1.pendingOperations },
   updateBluetoothUI s1 ui)

/-- The catch block of `toggleBluetooth` (lines 495 to 498) plus the
`finally` block: flip the store value, run `updateBluetoothUI`, clear the
pending flag. -/
def toggleBluetoothFailure (s : AppState) (ui : UIState) : AppState × UIState :=
  let s1 := { s with bluetoothEnabled := !s.bluetoothEnabled }
  ({ s1 with pendingOperations := pendingDelete bluetoothKey s1.pendingOperations },
   updateBluetoothUI s1 ui)

/-- The synchronous run of `toggleNightLight` (lines 504 to 512) up to the
`await` of `set_night_light_enabled`, mirroring `toggleWifiStart`. -/
def toggleNightLightStart (s : AppState) (ui : UIState) :
    AppState × UIState × List Call × Option Bool :=
  if nightLightKey ∈ s.pendingOperations then (s, ui, [], none)
  else
    let s1 := { s with pendingOperations := nightLightKey :: s.pendingOperations }
    let newState := !s.nightLightEnabled
    let ui1 := { ui with nightLightTileEnabled := newState }
    (s1, ui1, [⟨setNightLightCmd, Arg.bool newState⟩], some newState)

/-- The continuation of `toggleNightLight` after success (lines 513 to 514)
plus the `finally` block. -/
def toggleNightLightSuccess (s : AppState) (ui : UIState) (newState : Bool) :
    AppState × UIState :=
  let s1 := { s with nightLightEnabled := newState }
  ({ s1 with pendingOperations := pendingDelete nightLightKey s1.pendingOperations },
   updateNightLightUI s1 ui)

/-- The catch block of `toggleNightLight` (lines 516 to 519) plus the
`finally` block. -/
def toggleNightLightFailure (s : AppState) (ui : UIState) : AppState × UIState :=
  let s1 := { s with nightLightEnabled := !s.nightLightEnabled }
  ({ s1 with pendingOperations := pendingDelete nightLightKey s1.pendingOperations },
   updateNightLightUI s1 ui)

/-- The three guarded binary controls. -/
inductive ToggleKind where
  | wifi
  | bluetooth
  | nightLight
deriving DecidableEq, Repr

/-- The pending-set key each toggle uses. -/
def pendingKey : ToggleKind → String
  | ToggleKind.wifi => wifiKey
  | ToggleKind.bluetooth => bluetoothKey
  | ToggleKind.nightLight => nightLightKey

/-- Dispatch to the synchronous run of the given toggle. -/
def toggleStart (k : ToggleKind) (s : AppState) (ui : UIState) :
    AppState × UIState × List Call × Option Bool :=
  match k with
  | ToggleKind.wifi => toggleWifiStart s ui
  | ToggleKind.bluetooth => toggleBluetoothStart s ui
  | ToggleKind.nightLight => toggleNightLightStart s ui

/-- The store state after the given toggle resolves successfully with the
captured `newState` (the WiFi variant also schedules a deferred fetch and
skips the synchronous UI update; only the store is dispatched here). -/
def toggleSuccessStore (k : ToggleKind) (s : AppState) (newState : Bool) : AppState :=
  match k with
  | ToggleKind.wifi => (toggleWifiSuccess s newState).1
  | ToggleKind.bluetooth => (toggleBluetoothSuccess s initialUI newState).1
  | ToggleKind.nightLight => (toggleNightLightSuccess s initialUI newState).1

/-- The boolean the mirror store holds for the given toggle. -/
def storeValue (k : ToggleKind) (s : AppState) : Bool :=
  match k with
  | ToggleKind.wifi => s.wifiEnabled
  | ToggleKind.bluetooth => s.bluetoothEnabled
  | ToggleKind.nightLight => s.nightLightEnabled

/-- The tile dataset-enabled attribute displayed for the given toggle. -/
def tileValue (k : ToggleKind) (ui : UIState) : Bool :=
  match k with
  | ToggleKind.wifi => ui.wifiTileEnabled
  | ToggleKind.bluetooth => ui.bluetoothTileEnabled
  | ToggleKind.nightLight => ui.nightLightTileEnabled

/-- C2: for every guarded binary control, a toggle call made while the
pending flag is set is a complete no-op (same store, same UI, no backend
call), and from a non-pending state two back-to-back toggle calls issue
exactly one backend mutation: the first issues one call, the second is a
no-op on the state the first left behind. -/
theorem toggle_pending_serialization (k : ToggleKind) :
    (∀ s ui, pendingKey k ∈ s.pendingOperations →
      toggleStart k s ui = (s, ui, [], none)) ∧
    (∀ s ui, pendingKey k ∉ s.pendingOperations →
      (toggleStart k s ui).2.2.1.length = 1 ∧
      toggleStart k (toggleStart k s ui).1 (toggleStart k s ui).2.1 =
        ((toggleStart k s ui).1, (toggleStart k s ui).2.1, [], none)) := by
  constructor
  · intro s ui h
    cases k <;>
      simp only [toggleStart, toggleWifiStart, toggleBluetoothStart,
        toggleNightLightStart, pendingKey] at h ⊢ <;>
      rw [if_pos h]
  · intro s ui h
    cases k <;>
      simp only [toggleStart, toggleWifiStart, toggleBluetoothStart,
        toggleNightLightStart, pendingKey] at h ⊢ <;>
      rw [if_neg h] <;>
      refine ⟨rfl, ?_⟩ <;>
      simp [List.mem_cons]

/-- Witness for C2: concrete run of the WiFi toggle from the sample state:
the first call issues one mutation and the immediately following call is a
no-op. -/
theorem toggle_pending_serialization_witness :
    (toggleStart ToggleKind.wifi sampleState initialUI).2.2.1.length = 1 ∧
    toggleStart ToggleKind.wifi (toggleStart ToggleKind.wifi sampleState initialUI).1
        (toggleStart ToggleKind.wifi sampleState initialUI).2.1 =
      ((toggleStart ToggleKind.wifi sampleState initialUI).1,
       (toggleStart ToggleKind.wifi sampleState initialUI).2.1, [], none) :=
  (toggle_pending_serialization ToggleKind.wifi).2 sampleState initialUI (by decide)

/-- C10: for every guarded binary control started from a non-pending state,
the mirror store still holds the pre-toggle boolean after the synchronous
run issues the backend call (the optimistic flip touches only the tile
dataset attribute), and the store receives the toggled boolean only in the
success continuation. -/
theorem toggle_optimistic_only_in_ui (k : ToggleKind) (s : AppState) (ui : UIState)
    (h : pendingKey k ∉ s.pendingOperations) :
    storeValue k (toggleStart k s ui).1 = storeValue k s ∧
    tileValue k (toggleStart k s ui).2.1 = !storeValue k s ∧
    (toggleStart k s ui).2.2.2 = some (!storeValue k s) ∧
    storeValue k (toggleSuccessStore k (toggleStart k s ui).1 (!storeValue k s)) =
      !storeValue k s := by
  cases k <;>
    simp only [toggleStart, toggleWifiStart, toggleBluetoothStart,
      toggleNightLightStart, pendingKey] at h ⊢ <;>
    rw [if_neg h] <;>
    simp [storeValue, tileValue, toggleSuccessStore, toggleWifiSuccess,
      toggleBluetoothSuccess, toggleNightLightSuccess]

/-- Witness for C10: the Bluetooth toggle from the sample state: the store
keeps false while the tile already shows true, and the success continuation
commits true. -/
theorem toggle_optimistic_only_in_ui_witness :
    storeValue ToggleKind.bluetooth
        (toggleStart ToggleKind.bluetooth sampleState initialUI).1 = false ∧
    tileValue ToggleKind.bluetooth
        (toggleStart ToggleKind.bluetooth sampleState initialUI).2.1 = true ∧
    storeValue ToggleKind.bluetooth
        (toggleSuccessStore ToggleKind.bluetooth
          (toggleStart ToggleKind.bluetooth sampleState initialUI).1 true) = true := by
  have h := toggle_optimistic_only_in_ui ToggleKind.bluetooth sampleState initialUI
    (by decide)
  refine ⟨h.1.trans (by decide), ?_, ?_⟩
  · have h2 := h.2.1
    simpa using h2
  · have h4 := h.2.2.2
    simpa using h4

/-- C1 (evaluation at the failing input): starting `toggleWifi` from the
sample state (wifiEnabled false, nothing pending) and then running the
catch block, the store ends with wifiEnabled true — the toggled value, not
the pre-toggle value false. The catch flips a store field that the
synchronous run never wrote. -/
theorem wifi_failure_flips_instead_of_restoring :
    sampleState.wifiEnabled = false ∧
    (toggleWifiStart sampleState initialUI).1.wifiEnabled = false ∧
    (toggleWifiFailure (toggleWifiStart sampleState initialUI).1
        (toggleWifiStart sampleState initialUI).2.1).1.wifiEnabled = true := by
  decide

/-! Slider debounce machinery (src/ui/app.js lines 364 to 448). The volume
and brightness handler pairs are textually identical apart from the state
field, the timer variable and the command name, so one event machine is
embedded with the command name as a parameter; `runVolume` and
`runBrightness` are its two instantiations. -/

/-- The backend command name of the volume mutation. -/
def setVolumeCmd : String := "set_volume"

/-- The backend command name of the brightness mutation. -/
def setBrightnessCmd : String := "set_brightness"

/-- One slider control and its debounce timer: the mirror value
(`state.volume` or `state.brightness`) and, when a timer is live, its
scheduled fire time together with the value the `handleChange` closure
captured when it was scheduled. -/
structure SliderState where
  value : Int
  timer : Option (Nat × Int)
deriving DecidableEq, Repr

/-- A backend mutation call carrying the time at which it is observed. -/
structure TimedCall where
  time : Nat
  cmd : String
  value : Int
deriving DecidableEq, Repr

/-- Embeds `handleVolumeInput` and `handleBrightnessInput` (lines 367 to
372 and 418 to 423): store the parsed value and update the visible fill;
the timer is untouched and no backend call is made. -/
def handleInput (v : Int) (s : SliderState) : SliderState :=
  { s with value := v }

/-- Embeds `handleVolumeChange` and `handleBrightnessChange` (lines 374 to
391 and 425 to 439) at time `t`: clear any existing timer and schedule a
fresh one 50 units later, capturing the parsed value `v` in the closure. -/
def handleChange (t : Nat) (v : Int) (s : SliderState) : SliderState :=
  { s with timer := some (t + 50, v) }

/-- The debounce timer firing: the callback issues the backend call with
the value captured when the timer was scheduled, at the scheduled time. -/
def fireTimer (cmd : String) (s : SliderState) : SliderState × List TimedCall :=
  match s.timer with
  | none => (s, [])
  | some (ft, v) => ({ s with timer := none }, [⟨ft, cmd, v⟩])

/-- Fire the live timer when its deadline is at or before time `t` (the
callback runs before any event handler scheduled at a later tick). -/
def fireDue (cmd : String) (t : Nat) (s : SliderState) : SliderState × List TimedCall :=
  match s.timer with
  | none => (s, [])
  | some (ft, v) => if ft ≤ t then ({ s with timer := none }, [⟨ft, cmd, v⟩]) else (s, [])

/-- A raw slider event: a continuous input event or a commit (change)
event, each carrying the parsed slider value. -/
inductive SliderEvent where
  | input : Int → SliderEvent
  | change : Int → SliderEvent
deriving DecidableEq, Repr

/-- Dispatch one event at time `t` to its handler. -/
def stepEvent (t : Nat) (e : SliderEvent) (s : SliderState) : SliderState :=
  match e with
  | SliderEvent.input v => handleInput v s
  | SliderEvent.change v => handleChange t v s

/-- Run a time-ordered trace of slider events: before each event any due
timer fires, and after the last event the remaining timer (if any) fires at
its scheduled time. Returns the final slider state and all backend calls. -/
def runEvents (cmd : String) : List (Nat × SliderEvent) → SliderState →
    SliderState × List TimedCall
  | [], s => fireTimer cmd s
  | (t, e) :: rest, s =>
      let r1 := fireDue cmd t s
      let r2 := runEvents cmd rest (stepEvent t e r1.1)
      (r2.1, r1.2 ++ r2.2)

/-- The volume slider machine (`handleVolumeInput`, `handleVolumeChange`,
`volumeDebounceTimer`). -/
def runVolume : List (Nat × SliderEvent) → SliderState → SliderState × List TimedCall :=
  runEvents setVolumeCmd

/-- The brightness slider machine (`handleBrightnessInput`,
`handleBrightnessChange`, `brightnessDebounceTimer`). -/
def runBrightness : List (Nat × SliderEvent) → SliderState → SliderState × List TimedCall :=
  runEvents setBrightnessCmd

/-- The volume clamp the repository states in its test file
(`clampVolume` in the frontend tests). -/
def clampVolume (v : Int) : Int := max 0 (min 100 v)

/-- The brightness clamp the repository states in its test file
(`clampBrightness` in the frontend tests). -/
def clampBrightness (v : Int) : Int := max 1 (min 100 v)

/-- Commit events whose times start at the time of a previously scheduled
change and whose inter-arrival gaps are all shorter than the 50-unit quiet
period. -/
def chainFrom (t : Nat) : List (Nat × Int) → Prop
  | [] => True
  | (t1, _) :: rest => t ≤ t1 ∧ t1 < t + 50 ∧ chainFrom t1 rest

/-- The last element of a nonempty sequence given as head plus tail. -/
def lastOf (p : Nat × Int) : List (Nat × Int) → Nat × Int
  | [] => p
  | q :: rest => lastOf q rest

/-- A change event carrying value `v` at time `t`. -/
def changeAt (p : Nat × Int) : Nat × SliderEvent := (p.1, SliderEvent.change p.2)

/-- An input event carrying value `v` at time `t`. -/
def inputAt (p : Nat × Int) : Nat × SliderEvent := (p.1, SliderEvent.input p.2)

/-- Processing a burst of change events while a timer scheduled at `t` is
live: each change arrives before the deadline, cancels the timer and
schedules its own, so no call is emitted and the machine continues into the
suffix with the last change timer live. -/
theorem run_changes_gen (cmd : String) (es : List (Nat × Int)) :
    ∀ (t : Nat) (v val : Int) (suffix : List (Nat × SliderEvent)),
    chainFrom t es →
    runEvents cmd (es.map changeAt ++ suffix) ⟨val, some (t + 50, v)⟩ =
      runEvents cmd suffix
        ⟨val, some ((lastOf (t, v) es).1 + 50, (lastOf (t, v) es).2)⟩ := by
  induction es with
  | nil => intro t v val suffix _; rfl
  | cons p rest ih =>
      intro t v val suffix h
      obtain ⟨h1, h2, h3⟩ := h
      obtain ⟨t1, v1⟩ := p
      have hnotdue : ¬ t + 50 ≤ t1 := by omega
      simp only [List.map_cons, List.cons_append, runEvents, fireDue,
        stepEvent, changeAt, handleChange, lastOf]
      rw [if_neg hnotdue]
      simpa using ih t1 v1 val suffix h3

/-- The last element of a head-plus-tail sequence depends on the head only
through nothing when the tail is nonempty, and only through the head itself
otherwise; so two heads with equal second components give equal second
components of the last element. -/
theorem lastOf_snd_congr (a b : Nat × Int) (l : List (Nat × Int)) (h : a.2 = b.2) :
    (lastOf a l).2 = (lastOf b l).2 := by
  cases l with
  | nil => simpa [lastOf] using h
  | cons q rest => simp [lastOf]

/-- Processing input events with no live timer: the store tracks the last
input value and no backend call is emitted. -/
theorem run_inputs_none (cmd : String) (ins : List (Nat × Int)) :
    ∀ (val : Int),
    runEvents cmd (ins.map inputAt) ⟨val, none⟩ =
      (⟨(lastOf (0, val) ins).2, none⟩, []) := by
  induction ins with
  | nil => intro val; rfl
  | cons p rest ih =>
      intro val
      obtain ⟨t1, v1⟩ := p
      simp only [List.map_cons, runEvents, fireDue, stepEvent, inputAt,
        handleInput, lastOf]
      simp only [ih v1, List.nil_append]
      rw [lastOf_snd_congr (t1, v1) (0, v1) rest rfl]

/-- Processing input events while a timer is live: the input handlers never
touch the timer, so exactly the one pending call fires (either when its
deadline passes inside the trace or at the final flush), carrying the value
captured at scheduling time; the store ends at the last input value. -/
theorem run_inputs_pending (cmd : String) (ins : List (Nat × Int)) :
    ∀ (ft : Nat) (w val : Int),
    runEvents cmd (ins.map inputAt) ⟨val, some (ft, w)⟩ =
      (⟨(lastOf (0, val) ins).2, none⟩, [⟨ft, cmd, w⟩]) := by
  induction ins with
  | nil => intro ft w val; rfl
  | cons p rest ih =>
      intro ft w val
      obtain ⟨t1, v1⟩ := p
      by_cases hdue : ft ≤ t1
      · simp only [List.map_cons, runEvents, fireDue, stepEvent, inputAt,
          handleInput, lastOf]
        rw [if_pos hdue]
        simp only [run_inputs_none cmd rest v1, List.append_nil]
        rw [lastOf_snd_congr (t1, v1) (0, v1) rest rfl]
      · simp only [List.map_cons, runEvents, fireDue, stepEvent, inputAt,
          handleInput, lastOf]
        rw [if_neg hdue]
        simp only [ih ft w v1, List.nil_append]
        rw [lastOf_snd_congr (t1, v1) (0, v1) rest rfl]

/-- A full burst starting with no live timer: the head commit schedules the
first timer and the rest of the burst repeatedly supersedes it, so the
machine ends by flushing the last timer into the single backend call. -/
theorem run_changes_full (cmd : String) (t0 : Nat) (v0 : Int)
    (rest : List (Nat × Int)) (init : Int) (hb : chainFrom t0 rest) :
    runEvents cmd (((t0, v0) :: rest).map changeAt) ⟨init, none⟩ =
      (⟨init, none⟩,
       [⟨(lastOf (t0, v0) rest).1 + 50, cmd, (lastOf (t0, v0) rest).2⟩]) := by
  have hgen := run_changes_gen cmd rest t0 v0 init [] hb
  rw [List.append_nil] at hgen
  simp only [List.map_cons, runEvents, fireDue, stepEvent, changeAt,
    handleChange]
  simp only [hgen, runEvents, fireTimer, List.nil_append]

/-- C4: a burst of commit events whose inter-arrival gaps are all shorter
than the 50-unit quiet period yields exactly one backend mutation, for the
volume slider and for the brightness slider alike: the single call carries
the value of the last event of the burst and is observed exactly at its
time plus 50 — in particular no earlier than 50 units after it. -/
theorem debounce_coalesces_burst (t0 : Nat) (v0 : Int) (rest : List (Nat × Int))
    (init : Int) (hb : chainFrom t0 rest) :
    (runVolume (((t0, v0) :: rest).map changeAt) ⟨init, none⟩).2 =
      [⟨(lastOf (t0, v0) rest).1 + 50, setVolumeCmd, (lastOf (t0, v0) rest).2⟩] ∧
    (runBrightness (((t0, v0) :: rest).map changeAt) ⟨init, none⟩).2 =
      [⟨(lastOf (t0, v0) rest).1 + 50, setBrightnessCmd, (lastOf (t0, v0) rest).2⟩] := by
  constructor
  · rw [runVolume, run_changes_full setVolumeCmd t0 v0 rest init hb]
  · rw [runBrightness, run_changes_full setBrightnessCmd t0 v0 rest init hb]

/-- Witness for C4: commit events at times 0, 10 and 20 with values 10, 20
and 30 yield the single call set_volume(30) at time 70. -/
theorem debounce_coalesces_burst_witness :
    (runVolume [changeAt (0, 10), changeAt (10, 20), changeAt (20, 30)]
        ⟨50, none⟩).2 = [⟨70, setVolumeCmd, 30⟩] := by
  have h := (debounce_coalesces_burst 0 10 [(10, 20), (20, 30)] 50
    (by exact ⟨by omega, by omega, by omega, by omega, trivial⟩)).1
  simpa [lastOf] using h

/-- C5 counterexample: a commit of value 30 at time 0 followed by a raw
input of value 80 at time 10: at fire time 50 the mirror store holds 80,
but the dispatched call carries the captured value 30 — not the current
stored value. -/
theorem debounce_fires_captured_value_cex :
    (runVolume [changeAt (0, 30), inputAt (10, 80)] ⟨30, none⟩).1.value = 80 ∧
    (runVolume [changeAt (0, 30), inputAt (10, 80)] ⟨30, none⟩).2 =
      [⟨50, setVolumeCmd, 30⟩] ∧
    (30 : Int) ≠ 80 := by
  decide

/-- C5 as amended: when the debounce timer fires, the dispatched mutation
carries the value captured when the timer was last scheduled (the final
commit event of the burst), for every interleaving of later raw input
events — which update only the stored value, leaving the dispatched value
unchanged. -/
theorem debounce_fires_captured_value (t0 : Nat) (v0 : Int)
    (rest inputs : List (Nat × Int)) (init : Int) (hb : chainFrom t0 rest) :
    runVolume (((t0, v0) :: rest).map changeAt ++ inputs.map inputAt)
        ⟨init, none⟩ =
      (⟨(lastOf (0, init) inputs).2, none⟩,
       [⟨(lastOf (t0, v0) rest).1 + 50, setVolumeCmd, (lastOf (t0, v0) rest).2⟩]) := by
  rw [runVolume]
  simp only [List.map_cons, List.cons_append, runEvents, fireDue, stepEvent,
    changeAt, handleChange, List.append_eq, List.nil_append]
  rw [run_changes_gen setVolumeCmd rest t0 v0 init (inputs.map inputAt) hb]
  rw [run_inputs_pending setVolumeCmd inputs _ _ init]

/-- Witness for C5 as amended: the counterexample trace evaluated through
the amended theorem: the call carries 30 while the store ends at 80. -/
theorem debounce_fires_captured_value_witness :
    runVolume [changeAt (0, 30), inputAt (10, 80)] ⟨30, none⟩ =
      (⟨80, none⟩, [⟨50, setVolumeCmd, 30⟩]) := by
  have h := debounce_fires_captured_value 0 30 [] [(10, 80)] 30 trivial
  simpa [lastOf] using h

/-- C3 (evaluation at the failing input): a brightness input event with
value 0 stores 0 in the mirror store and a brightness commit of 0 sends
set_brightness(0) to the gateway, although the clamp the spec and the test
file state maps 0 to 1; likewise a volume commit of 150 sends
set_volume(150) although the volume clamp maps 150 to 100. -/
theorem slider_values_not_clamped :
    (handleInput 0 ⟨50, none⟩).value = 0 ∧ clampBrightness 0 = 1 ∧
    (runBrightness [changeAt (0, 0)] ⟨50, none⟩).2 = [⟨50, setBrightnessCmd, 0⟩] ∧
    (runVolume [changeAt (0, 150)] ⟨50, none⟩).2 = [⟨50, setVolumeCmd, 150⟩] ∧
    clampVolume 150 = 100 := by
  decide

/-! Mute, the deferred tasks, and the component error boundaries
(src/ui/app.js lines 393 to 410, 441 to 448, 454 to 541). Each JS async
function is embedded as a task returning an Except value: a try/catch in
the source becomes a branch that yields an ok result, and an uncaught
rejection becomes an error result. -/

/-- The synchronous run of `toggleMute` (lines 393 to 400) up to the
`await` of `toggle_mute`: there is no pending guard and no optimistic
write, so the store is untouched and the backend call is issued
unconditionally. -/
def toggleMuteStart (s : AppState) : AppState × List Call :=
  (s, [⟨"toggle_mute", Arg.unit⟩])

/-- The continuation of `toggleMute` after `toggle_mute` settles: on
success the store muted flag is assigned the value the backend returned
(then `updateVolumeUI` runs); the catch block only logs, leaving the store
unchanged. -/
def toggleMuteFinish (s : AppState) (result : Except String Bool) : AppState :=
  match result with
  | Except.ok b => { s with muted := b }
  | Except.error _ => s

/-- The WiFi status triple returned by `get_wifi_status`. -/
structure NetworkStatus where
  wifi_enabled : Bool
  wifi_connected : Bool
  wifi_ssid : Option String
deriving DecidableEq, Repr

/-- The deferred callback `toggleWifi` schedules 1000 units after a
successful mutation (lines 466 to 472): fetch `get_wifi_status` and
overwrite the WiFi fields of the store and the UI. The callback body has no
try/catch, so a fetch failure propagates out of the task as an unhandled
rejection. -/
def wifiDeferredFetch (s : AppState) (ui : UIState)
    (fetch : Except String NetworkStatus) : Except String (AppState × UIState) :=
  match fetch with
  | Except.error e => Except.error e
  | Except.ok ns =>
      let s1 := { s with wifiEnabled := ns.wifi_enabled,
                         wifiConnected := ns.wifi_connected,
                         wifiSsid := ns.wifi_ssid }
      Except.ok (s1, updateWifiUI s1 ui)

/-- The deferred callback `suspendSystem` schedules 100 units after
requesting the window close (lines 534 to 536): invoke `suspend_system`
with no try/catch; by the time it runs the surrounding try block has
already exited, so a failure propagates out as an unhandled rejection. -/
def suspendDeferred (callResult : Except String Unit) : Except String Unit :=
  match callResult with
  | Except.error e => Except.error e
  | Except.ok _ => Except.ok ()

/-- Embeds `refreshVolume` (lines 402 to 410): two guarded fetches; a
failure of the first leaves the store unchanged, a failure of the second
leaves only the volume updated, and the catch block only logs. -/
def refreshVolume (s : AppState) (volRes : Except String Int)
    (muteRes : Except String Bool) : AppState :=
  match volRes with
  | Except.error _ => s
  | Except.ok v =>
      match muteRes with
      | Except.error _ => { s with volume := v }
      | Except.ok m => { s with volume := v, muted := m }

/-- Embeds `refreshBrightness` (lines 441 to 448). -/
def refreshBrightness (s : AppState) (res : Except String Int) : AppState :=
  match res with
  | Except.error _ => s
  | Except.ok b => { s with brightness := b }

/-- The volume debounce timer callback as a task (lines 383 to 390): try
the mutation; on failure fall back to `refreshVolume`, itself guarded — so
the task always resolves. -/
def volumeTimerTask (s : AppState) (mutation : Except String Unit)
    (volRes : Except String Int) (muteRes : Except String Bool) :
    Except String AppState :=
  match mutation with
  | Except.ok _ => Except.ok s
  | Except.error _ => Except.ok (refreshVolume s volRes muteRes)

/-- The brightness debounce timer callback as a task (lines 432 to 438). -/
def brightnessTimerTask (s : AppState) (mutation : Except String Unit)
    (res : Except String Int) : Except String AppState :=
  match mutation with
  | Except.ok _ => Except.ok s
  | Except.error _ => Except.ok (refreshBrightness s res)

/-- The whole of `toggleWifi` as a task, given the settled outcome of its
backend mutation: the guard, the try, the catch and the finally make the
task itself always resolve. -/
def toggleWifiTask (s : AppState) (ui : UIState) (outcome : Except String Unit) :
    Except String (AppState × UIState × List Call × List DeferredTask) :=
  match toggleWifiStart s ui with
  | (s1, ui1, calls, none) => Except.ok (s1, ui1, calls, [])
  | (s1, ui1, calls, some newState) =>
      match outcome with
      | Except.ok _ =>
          let r := toggleWifiSuccess s1 newState
          Except.ok (r.1, ui1, calls, r.2)
      | Except.error _ =>
          let r := toggleWifiFailure s1 ui1
          Except.ok (r.1, r.2, calls, [])

/-- The whole of `toggleBluetooth` as a task. -/
def toggleBluetoothTask (s : AppState) (ui : UIState)
    (outcome : Except String Unit) :
    Except String (AppState × UIState × List Call) :=
  match toggleBluetoothStart s ui with
  | (s1, ui1, calls, none) => Except.ok (s1, ui1, calls)
  | (s1, ui1, calls, some newState) =>
      match outcome with
      | Except.ok _ =>
          let r := toggleBluetoothSuccess s1 ui1 newState
          Except.ok (r.1, r.2, calls)
      | Except.error _ =>
          let r := toggleBluetoothFailure s1 ui1
          Except.ok (r.1, r.2, calls)

/-- The whole of `toggleNightLight` as a task. -/
def toggleNightLightTask (s : AppState) (ui : UIState)
    (outcome : Except String Unit) :
    Except String (AppState × UIState × List Call) :=
  match toggleNightLightStart s ui with
  | (s1, ui1, calls, none) => Except.ok (s1, ui1, calls)
  | (s1, ui1, calls, some newState) =>
      match outcome with
      | Except.ok _ =>
          let r := toggleNightLightSuccess s1 ui1 newState
          Except.ok (r.1, r.2, calls)
      | Except.error _ =>
          let r := toggleNightLightFailure s1 ui1
          Except.ok (r.1, r.2, calls)

/-- C6 counterexample: the mute control does not follow the Guarded Toggle
contract. Two back-to-back `toggleMute` runs from the sample state each
issue a backend call — two mutations rather than the single one the
pending-flag step would allow — and the store muted flag before the backend
call settles still equals the pre-toggle value: no optimistic write
happened. -/
theorem mute_not_guarded_cex :
    ((toggleMuteStart sampleState).2 ++
      (toggleMuteStart (toggleMuteStart sampleState).1).2).length = 2 ∧
    (2 : Nat) ≠ 1 ∧
    (toggleMuteStart sampleState).1.muted = sampleState.muted ∧
    (!sampleState.muted) ≠ sampleState.muted := by
  decide

/-- C6 as amended: `toggleMute` is unguarded and pessimistic: its
synchronous run leaves the store untouched and issues exactly one backend
call unconditionally (so back-to-back runs issue one call each), and the
muted flag is updated only when the call resolves, to the value the backend
returned; a failed call leaves the store unchanged. -/
theorem mute_unguarded_updates_on_resolve (s : AppState) (b : Bool) (e : String) :
    (toggleMuteStart s).1 = s ∧
    (toggleMuteStart s).2.length = 1 ∧
    ((toggleMuteStart s).2 ++ (toggleMuteStart (toggleMuteStart s).1).2).length = 2 ∧
    toggleMuteFinish s (Except.ok b) = { s with muted := b } ∧
    toggleMuteFinish s (Except.error e) = s :=
  ⟨rfl, rfl, rfl, rfl, rfl⟩

/-- C7 counterexample: a failure of the deferred WiFi status fetch and a
failure of the deferred suspend command each escape their task as an
unhandled rejection: the task result is the error itself, not a recovered
ok value. -/
theorem deferred_failures_escape_cex :
    wifiDeferredFetch sampleState initialUI (Except.error "fetch failed") =
      Except.error "fetch failed" ∧
    suspendDeferred (Except.error "suspend failed") =
      Except.error "suspend failed" :=
  ⟨rfl, rfl⟩

/-- C7 as amended: failures in the main bodies of the debounced mutator
callbacks and the guarded toggles are caught at the component boundary (the
tasks always resolve, whatever the backend outcome), but the WiFi deferred
status fetch and the deferred suspend command run with no enclosing catch,
so their failures escape as unhandled rejections. -/
theorem component_boundaries_except_deferred (s : AppState) (ui : UIState)
    (outcome : Except String Unit) (volRes : Except String Int)
    (muteRes : Except String Bool) (e : String) :
    (∃ r, toggleWifiTask s ui outcome = Except.ok r) ∧
    (∃ r, toggleBluetoothTask s ui outcome = Except.ok r) ∧
    (∃ r, toggleNightLightTask s ui outcome = Except.ok r) ∧
    (∃ r, volumeTimerTask s outcome volRes muteRes = Except.ok r) ∧
    (∃ r, brightnessTimerTask s outcome volRes = Except.ok r) ∧
    wifiDeferredFetch s ui (Except.error e) = Except.error e ∧
    suspendDeferred (Except.error e) = Except.error e := by
  refine ⟨?_, ?_, ?_, ?_, ?_, rfl, rfl⟩
  · unfold toggleWifiTask
    rcases h : toggleWifiStart s ui with ⟨s1, ui1, calls, cap⟩
    cases cap <;> cases outcome <;> exact ⟨_, rfl⟩
  · unfold toggleBluetoothTask
    rcases h : toggleBluetoothStart s ui with ⟨s1, ui1, calls, cap⟩
    cases cap <;> cases outcome <;> exact ⟨_, rfl⟩
  · unfold toggleNightLightTask
    rcases h : toggleNightLightStart s ui with ⟨s1, ui1, calls, cap⟩
    cases cap <;> cases outcome <;> exact ⟨_, rfl⟩
  · cases outcome <;> exact ⟨_, rfl⟩
  · cases outcome <;> exact ⟨_, rfl⟩

/-- C8 counterexample: the gateway wrapper `invoke` is not free of side
effects beyond delegation: when the backend call fails it shows an error
toast — a notifier message — before re-throwing. -/
theorem invoke_failure_toasts_cex :
    (invoke "set_volume" (Except.error "boom")).2 =
      [⟨"Error: boom", "error"⟩] ∧
    ([⟨"Error: boom", "error"⟩] : List Toast) ≠ [] :=
  ⟨rfl, by decide⟩

/-- C8 as amended: `invoke` delegates and returns the backend outcome
unchanged (in particular it never swallows or produces a result of its own
and touches no store state), produces no effect at all on success, and on
failure shows exactly one error toast before re-throwing the same
failure. -/
theorem invoke_delegates_and_toasts_on_failure (command : String) (v : Arg)
    (e : String) :
    invoke command (Except.ok v) = (Except.ok v, []) ∧
    invoke command (Except.error e) =
      (Except.error e, [⟨"Error: " ++ e, "error"⟩]) :=
  ⟨rfl, rfl⟩

end ControlCentre
